import Mathlib

/-!
Verification of the booking overlap-conflict logic of the AdminPortal
repository (`src/server/src/routes/bookings.ts`).

Timestamps are modelled as `Nat` (JS `Date` values compare as numbers; the
Prisma `lt/lte/gt/gte` operators on `DateTime` are the numeric comparisons).
The Prisma booking table is modelled as a `List Booking`; the `users` and
`services` join tables are inlined as list-valued fields of `Booking`,
since the conflict logic never reads them.
-/

namespace AdminPortal

inductive BookingStatus where
  | PENDING
  | CONFIRMED
  | CANCELLED
  | COMPLETED
  | NO_SHOW
deriving DecidableEq, Repr

structure Booking where
  id : String
  startTime : Nat
  endTime : Nat
  status : BookingStatus
  users : List String
  services : List String
deriving DecidableEq, Repr

/-- The per-row condition of the `prisma.booking.findFirst` conflict query in
`POST /` (bookings.ts lines 241-254) and `PUT /:id` (lines 350-363), with
`s1, e1` the candidate request's `startTime, endTime` and `s2, e2` the stored
row's columns:
`OR [ startTime: (lt e1, gte s1), endTime: (gt s1, lte e1) ]`. -/
def srcOverlaps (s1 e1 s2 e2 : Nat) : Bool :=
  (decide (s2 < e1) && decide (s1 ≤ s2)) || (decide (s1 < e2) && decide (e2 ≤ e1))

/-- The full row filter: in the `PUT /:id` query the clause `id: { not: id }`
is conjoined (bookings.ts line 349); in the `POST /` query there is no
exclusion. -/
def matchesConflict (s1 e1 : Nat) (exId : Option String) (b : Booking) : Bool :=
  (match exId with
   | none => true
   | some x => !(b.id == x)) && srcOverlaps s1 e1 b.startTime b.endTime

/-- `prisma.booking.findFirst` with the conflict where-clause: the first
stored row satisfying the filter, if any. -/
def conflictingBooking (store : List Booking) (s1 e1 : Nat) (exId : Option String) :
    Option Booking :=
  store.find? (matchesConflict s1 e1 exId)

/-- The boolean the handlers branch on: `if (conflictingBooking) ...`. -/
def hasConflict (store : List Booking) (s1 e1 : Nat) (exId : Option String) : Bool :=
  (conflictingBooking store s1 e1 exId).isSome

/-- The overlap test the spec prescribes (spec.md section 4.1): two half-open
intervals `[s1,e1)` and `[s2,e2)` overlap iff `s1 < e2 AND s2 < e1`. Stated
from the spec's words, for comparison with `srcOverlaps`. -/
def specOverlaps (s1 e1 s2 e2 : Nat) : Bool :=
  decide (s1 < e2) && decide (s2 < e1)

/-- The checker the spec prescribes (spec.md section 4.1): scan the store,
skipping the `excludeId` row, and report whether any row overlaps the
candidate under the canonical predicate. Stated from the spec's words, for
comparison with `hasConflict`. -/
def specHasConflict (store : List Booking) (s1 e1 : Nat) (exId : Option String) : Bool :=
  store.any (fun b =>
    (match exId with
     | none => true
     | some x => !(b.id == x)) && specOverlaps s1 e1 b.startTime b.endTime)

/-- Outcome of the `POST /` handler: the HTTP status code it responds with
and the booking table afterwards. -/
structure PostResponse where
  code : Nat
  store : List Booking
deriving DecidableEq, Repr

/-- The `POST /` handler (bookings.ts lines 234-313): run the conflict query;
on a hit respond 409 leaving the table unchanged, otherwise insert the new
booking (with its user and service links) and respond 201. -/
def postBooking (store : List Booking) (startTime endTime : Nat)
    (userIds serviceIds : List String) (status : BookingStatus)
    (newId : String) : PostResponse :=
  match conflictingBooking store startTime endTime none with
  | some _ => ⟨409, store⟩
  | none => ⟨201, store ++ [⟨newId, startTime, endTime, status, userIds, serviceIds⟩]⟩

/-- Outcome of the `PUT /:id` handler: 404, 409, or the updated table. -/
inductive PutResult where
  | notFound
  | conflict
  | updated (store : List Booking)
deriving DecidableEq, Repr

/-- The `prisma.booking.update` step (bookings.ts lines 373-381): build
`updateData` from the fields present in the request and apply it to the row
with the given id. -/
def applyUpdate (store : List Booking) (id : String)
    (startTime endTime : Option Nat) (status : Option BookingStatus) : List Booking :=
  store.map (fun b =>
    if b.id == id then
      { b with
        startTime := startTime.getD b.startTime,
        endTime := endTime.getD b.endTime,
        status := status.getD b.status }
    else b)

/-- The `PUT /:id` handler (bookings.ts lines 331-471): 404 if the id is
absent; the conflict query (excluding the id) runs only under
`if (startTime && endTime)`, i.e. only when both times are supplied;
otherwise the update is applied directly. -/
def putBooking (store : List Booking) (id : String)
    (startTime endTime : Option Nat) (status : Option BookingStatus) : PutResult :=
  match store.find? (fun b => b.id == id) with
  | none => .notFound
  | some _ =>
    match startTime, endTime with
    | some s, some e =>
      if hasConflict store s e (some id) then .conflict
      else .updated (applyUpdate store id (some s) (some e) status)
    | _, _ => .updated (applyUpdate store id startTime endTime status)

/-- A booking-creation request, for the interleaving model of two concurrent
`POST /` handlers. -/
structure CreateReq where
  id : String
  startTime : Nat
  endTime : Nat
  status : BookingStatus
  users : List String
  services : List String
deriving DecidableEq, Repr

/-- The insert step of the `POST /` handler in isolation. -/
def insertPhase (store : List Booking) (r : CreateReq) : List Booking :=
  store ++ [⟨r.id, r.startTime, r.endTime, r.status, r.users, r.services⟩]

/-- Two concurrent `POST /` handlers at the interleaving where both conflict
queries read the store before either insert commits (spec.md section 5):
returns the two conflict-check results and the final table. -/
def raceRun (store : List Booking) (r1 r2 : CreateReq) : Bool × Bool × List Booking :=
  let c1 := hasConflict store r1.startTime r1.endTime none
  let c2 := hasConflict store r2.startTime r2.endTime none
  let s1 := if c1 then store else insertPhase store r1
  let s2 := if c2 then s1 else insertPhase s1 r2
  (c1, c2, s2)

/-- The fields of a stored row the conflict query actually reads. -/
def coreFields (b : Booking) : String × Nat × Nat :=
  (b.id, b.startTime, b.endTime)

/-- Everything except the user/service links. -/
def nonRelFields (b : Booking) : String × Nat × Nat × BookingStatus :=
  (b.id, b.startTime, b.endTime, b.status)

/-- Everything except the status. -/
def nonStatusFields (b : Booking) : String × Nat × Nat × List String × List String :=
  (b.id, b.startTime, b.endTime, b.users, b.services)

theorem hasConflict_eq_any (store : List Booking) (s1 e1 : Nat) (exId : Option String) :
    hasConflict store s1 e1 exId = store.any (matchesConflict s1 e1 exId) := by
  induction store with
  | nil => rfl
  | cons b rest ih =>
    have ih' : (List.find? (matchesConflict s1 e1 exId) rest).isSome =
        rest.any (matchesConflict s1 e1 exId) := ih
    cases h : matchesConflict s1 e1 exId b <;>
      simp [hasConflict, conflictingBooking, List.find?, h, ih']

theorem hasConflict_eq_any_coreFields (store : List Booking) (s1 e1 : Nat)
    (exId : Option String) :
    hasConflict store s1 e1 exId =
      (store.map coreFields).any (fun k =>
        (match exId with
         | none => true
         | some x => !(k.1 == x)) && srcOverlaps s1 e1 k.2.1 k.2.2) := by
  rw [hasConflict_eq_any]
  induction store with
  | nil => rfl
  | cons b rest ih => simp only [List.any_cons, List.map_cons, ih, matchesConflict, coreFields]

/-- C1: evaluation at the failing input. With a single stored booking at
[0,10) and candidate [2,3) (the stored interval strictly contains the
candidate), the source conflict check returns false while the spec's
canonical checker returns true, so the claimed iff with
`S1 < E2 AND S2 < E1` fails on the code. -/
theorem c1_conflict_check_misses_containment :
    hasConflict [⟨"b1", 0, 10, .CONFIRMED, [], []⟩] 2 3 none = false ∧
    specHasConflict [⟨"b1", 0, 10, .CONFIRMED, [], []⟩] 2 3 none = true :=
  ⟨rfl, rfl⟩

/-- C2 counterexample: the negation of the claim. Whenever the candidate
[s1,e1) strictly contains the single stored interval [s2,e2) (durations
positive), the source conflict check returns true, never false: the stored
start falls inside [s1,e1), so the first OR-branch of the query fires. -/
theorem c2_candidate_containing_stored_is_detected :
    ¬ ∃ (bid : String) (st : BookingStatus) (us svs : List String) (s2 e2 s1 e1 : Nat),
        s1 < e1 ∧ s2 < e2 ∧ s1 < s2 ∧ e2 < e1 ∧
        hasConflict [⟨bid, s2, e2, st, us, svs⟩] s1 e1 none = false := by
  rintro ⟨bid, st, us, svs, s2, e2, s1, e1, h1, h2, h3, h4, hfalse⟩
  rw [hasConflict_eq_any] at hfalse
  simp [matchesConflict, srcOverlaps] at hfalse
  omega

/-- C2 (amended): with the containment direction reversed — the single
stored interval [s2,e2) strictly containing the candidate [s1,e1)
(s2 < s1 and e1 < e2) — the source conflict check returns
false: that overlap goes undetected. -/
theorem c2_stored_containing_candidate_undetected
    (bid : String) (st : BookingStatus) (us svs : List String)
    (s2 e2 s1 e1 : Nat) (h1 : s2 < s1) (h2 : e1 < e2) :
    hasConflict [⟨bid, s2, e2, st, us, svs⟩] s1 e1 none = false := by
  rw [hasConflict_eq_any]
  simp [matchesConflict, srcOverlaps]
  omega

/-- C2 witness: stored [0,10) strictly contains candidate [2,3); the source
check reports no conflict. -/
theorem c2_stored_containing_candidate_undetected_witness :
    0 < 2 ∧ 3 < 10 ∧
    hasConflict [⟨"b1", 0, 10, BookingStatus.CONFIRMED, [], []⟩] 2 3 none = false :=
  ⟨by decide, by decide,
    c2_stored_containing_candidate_undetected "b1" .CONFIRMED [] [] 0 10 2 3
      (by decide) (by decide)⟩

/-- C3 counterexample: the source's per-row predicate is not symmetric:
with A = [2,3) as candidate against stored B = [0,10) it is false, but with
B as candidate against stored A it is true. -/
theorem c3_src_overlaps_not_symmetric :
    srcOverlaps 2 3 0 10 = false ∧ srcOverlaps 0 10 2 3 = true :=
  ⟨rfl, rfl⟩

/-- C3 (amended): the source's per-row predicate gives the same boolean with
the roles swapped whenever neither positive-duration interval strictly
contains the other; symmetry fails exactly on strict-containment pairs. -/
theorem c3_src_overlaps_symmetric_outside_containment
    (s1 e1 s2 e2 : Nat) (h1 : s1 < e1) (h2 : s2 < e2)
    (h3 : ¬(s1 < s2 ∧ e2 < e1)) (h4 : ¬(s2 < s1 ∧ e1 < e2)) :
    srcOverlaps s1 e1 s2 e2 = srcOverlaps s2 e2 s1 e1 := by
  have hd : ∀ a b c d : Nat,
      srcOverlaps a b c d = decide ((c < b ∧ a ≤ c) ∨ (a < d ∧ d ≤ b)) := by
    intro a b c d
    simp [srcOverlaps]
  rw [hd, hd, decide_eq_decide]
  omega

/-- C3 witness: partially overlapping intervals [0,10) and [5,15): the
source predicate agrees in both orders. -/
theorem c3_src_overlaps_symmetric_outside_containment_witness :
    0 < 10 ∧ 5 < 15 ∧ ¬(0 < 5 ∧ 15 < 10) ∧ ¬(5 < 0 ∧ 10 < 15) ∧
    srcOverlaps 0 10 5 15 = srcOverlaps 5 15 0 10 :=
  ⟨by decide, by decide, by decide, by decide,
    c3_src_overlaps_symmetric_outside_containment 0 10 5 15
      (by decide) (by decide) (by decide) (by decide)⟩

/-- C4: update-path exclusion. If every stored row overlapping the candidate
under the source predicate has id equal to the excluded id, the
exclusion-aware check (`id: not excludeId` conjoined with the overlap
clause) returns false; in particular a booking does not conflict with its
own prior state on update. -/
theorem c4_exclusion_prevents_self_conflict
    (store : List Booking) (s1 e1 : Nat) (exId : String)
    (h : ∀ b ∈ store, srcOverlaps s1 e1 b.startTime b.endTime = true → b.id = exId) :
    hasConflict store s1 e1 (some exId) = false := by
  rw [hasConflict_eq_any]
  have hm : ∀ b ∈ store, matchesConflict s1 e1 (some exId) b = false := by
    intro b hb
    cases hov : srcOverlaps s1 e1 b.startTime b.endTime with
    | false => simp [matchesConflict, hov]
    | true => simp [matchesConflict, hov, h b hb hov]
  exact List.any_eq_false.mpr (fun b hb => by simp [hm b hb])

/-- C4 witness: the spec's concrete scenario in minutes: booking "b1" stored
at [540,600) = [09:00,10:00), updated to [555,615) = [09:15,10:15) with
excludeId "b1": no conflict. -/
theorem c4_exclusion_prevents_self_conflict_witness :
    (∀ b ∈ ([⟨"b1", 540, 600, BookingStatus.CONFIRMED, [], []⟩] : List Booking),
        srcOverlaps 555 615 b.startTime b.endTime = true → b.id = "b1") ∧
    hasConflict [⟨"b1", 540, 600, BookingStatus.CONFIRMED, [], []⟩] 555 615
      (some "b1") = false :=
  ⟨by decide,
    c4_exclusion_prevents_self_conflict _ 555 615 "b1" (by decide)⟩

/-- C5: adjacent intervals touching only at a boundary (candidate end equal
to stored start, or stored end equal to candidate start) never conflict,
with or without an exclusion id: half-open semantics. -/
theorem c5_touching_boundary_no_conflict
    (bid : String) (st : BookingStatus) (us svs : List String)
    (s1 e1 s2 e2 : Nat) (exId : Option String)
    (h1 : s1 < e1) (h2 : s2 < e2) (h3 : e1 = s2 ∨ e2 = s1) :
    hasConflict [⟨bid, s2, e2, st, us, svs⟩] s1 e1 exId = false := by
  have hso : srcOverlaps s1 e1 s2 e2 = false := by
    simp [srcOverlaps]
    omega
  rw [hasConflict_eq_any]
  simp [matchesConflict, hso]

/-- C5 witness: the spec's concrete scenario in minutes: store holds
[540,600) = [09:00,10:00), candidate [600,660) = [10:00,11:00): touching
boundary, no conflict. -/
theorem c5_touching_boundary_no_conflict_witness :
    600 < 660 ∧ 540 < 600 ∧ (660 = 540 ∨ 600 = 600) ∧
    hasConflict [⟨"b1", 540, 600, BookingStatus.CONFIRMED, [], []⟩] 600 660 none = false :=
  ⟨by decide, by decide, by decide,
    c5_touching_boundary_no_conflict "b1" .CONFIRMED [] [] 600 660 540 600 none
      (by decide) (by decide) (by decide)⟩

/-- C6: the creation handler persists iff its conflict check is false: it
responds 409 with the table unchanged exactly when the conflict query hits
(no booking, user link or service link inserted), and otherwise responds
201 with the new booking — carrying its user and service links — appended. -/
theorem c6_post_persists_iff_no_conflict
    (store : List Booking) (s e : Nat) (us svs : List String)
    (st : BookingStatus) (nid : String) :
    ((postBooking store s e us svs st nid).code = 409 ↔
        hasConflict store s e none = true) ∧
    (postBooking store s e us svs st nid).store =
      (if hasConflict store s e none then store
       else store ++ [⟨nid, s, e, st, us, svs⟩]) := by
  cases h : conflictingBooking store s e none <;>
    simp [postBooking, hasConflict, h]

/-- C7: the conflict query reads only each row's id, startTime and endTime:
two stores that agree on everything except the user/service links give the
same boolean, so a candidate conflicts with an overlapping booking even when
they share no users or services (one global time axis). -/
theorem c7_conflict_ignores_users_and_services
    (store1 store2 : List Booking)
    (h : store1.map nonRelFields = store2.map nonRelFields)
    (s1 e1 : Nat) (exId : Option String) :
    hasConflict store1 s1 e1 exId = hasConflict store2 s1 e1 exId := by
  have hproj : ∀ l : List Booking, l.map coreFields =
      (l.map nonRelFields).map (fun k => (k.1, k.2.1, k.2.2.1)) := by
    intro l
    induction l with
    | nil => rfl
    | cons b t ih => simp [coreFields, nonRelFields, ih]
  have hcore : store1.map coreFields = store2.map coreFields := by
    rw [hproj store1, hproj store2, h]
  rw [hasConflict_eq_any_coreFields, hasConflict_eq_any_coreFields, hcore]

/-- C7 witness: two singleton stores for the same interval [0,10), one with
user "u1" and service "s1" attached, the other with none: the check gives
the same answer for candidate [5,15). -/
theorem c7_conflict_ignores_users_and_services_witness :
    ([⟨"b1", 0, 10, .CONFIRMED, ["u1"], ["s1"]⟩] : List Booking).map nonRelFields =
      ([⟨"b1", 0, 10, .CONFIRMED, [], []⟩] : List Booking).map nonRelFields ∧
    hasConflict [⟨"b1", 0, 10, .CONFIRMED, ["u1"], ["s1"]⟩] 5 15 none =
      hasConflict [⟨"b1", 0, 10, .CONFIRMED, [], []⟩] 5 15 none :=
  ⟨rfl, c7_conflict_ignores_users_and_services _ _ rfl 5 15 none⟩

/-- C8: when exactly one of startTime/endTime is supplied to the update
handler, the `if (startTime && endTime)` guard skips the conflict query
entirely and the supplied time is applied to the stored booking — a 409 is
impossible on this path, whatever overlaps result. -/
theorem c8_put_single_time_skips_conflict_check
    (store : List Booking) (id : String) (v : Nat) (stOpt : Option BookingStatus)
    (hex : (store.find? (fun b => b.id == id)).isSome = true) :
    putBooking store id (some v) none stOpt =
      .updated (applyUpdate store id (some v) none stOpt) ∧
    putBooking store id none (some v) stOpt =
      .updated (applyUpdate store id none (some v) stOpt) := by
  obtain ⟨b, hb⟩ := Option.isSome_iff_exists.mp hex
  constructor <;> simp [putBooking, hb]

/-- C8 witness: store holds "a" at [0,10) and "b" at [20,30); updating "b"
with only startTime 5 (or only endTime 5) is applied without any conflict
outcome, although [5,30) overlaps [0,10). -/
theorem c8_put_single_time_skips_conflict_check_witness :
    (([⟨"a", 0, 10, .CONFIRMED, [], []⟩, ⟨"b", 20, 30, .CONFIRMED, [], []⟩] :
        List Booking).find? (fun bk => bk.id == "b")).isSome = true ∧
    (putBooking [⟨"a", 0, 10, .CONFIRMED, [], []⟩, ⟨"b", 20, 30, .CONFIRMED, [], []⟩]
        "b" (some 5) none none =
      .updated (applyUpdate
        [⟨"a", 0, 10, .CONFIRMED, [], []⟩, ⟨"b", 20, 30, .CONFIRMED, [], []⟩]
        "b" (some 5) none none) ∧
    putBooking [⟨"a", 0, 10, .CONFIRMED, [], []⟩, ⟨"b", 20, 30, .CONFIRMED, [], []⟩]
        "b" none (some 5) none =
      .updated (applyUpdate
        [⟨"a", 0, 10, .CONFIRMED, [], []⟩, ⟨"b", 20, 30, .CONFIRMED, [], []⟩]
        "b" none (some 5) none)) :=
  ⟨by decide,
    c8_put_single_time_skips_conflict_check _ "b" 5 none (by decide)⟩

/-- C9: the conflict queries have no status filter: two stores that agree on
everything except the status column give the same boolean, so CANCELLED,
COMPLETED and NO_SHOW rows block an overlapping candidate exactly as
CONFIRMED rows do. -/
theorem c9_conflict_ignores_status
    (store1 store2 : List Booking)
    (h : store1.map nonStatusFields = store2.map nonStatusFields)
    (s1 e1 : Nat) (exId : Option String) :
    hasConflict store1 s1 e1 exId = hasConflict store2 s1 e1 exId := by
  have hproj : ∀ l : List Booking, l.map coreFields =
      (l.map nonStatusFields).map (fun k => (k.1, k.2.1, k.2.2.1)) := by
    intro l
    induction l with
    | nil => rfl
    | cons b t ih => simp [coreFields, nonStatusFields, ih]
  have hcore : store1.map coreFields = store2.map coreFields := by
    rw [hproj store1, hproj store2, h]
  rw [hasConflict_eq_any_coreFields, hasConflict_eq_any_coreFields, hcore]

/-- C9 witness: a CANCELLED row at [0,10) and a CONFIRMED row at [0,10)
give the same answer for the overlapping candidate [5,15). -/
theorem c9_conflict_ignores_status_witness :
    ([⟨"b1", 0, 10, .CANCELLED, [], []⟩] : List Booking).map nonStatusFields =
      ([⟨"b1", 0, 10, .CONFIRMED, [], []⟩] : List Booking).map nonStatusFields ∧
    hasConflict [⟨"b1", 0, 10, .CANCELLED, [], []⟩] 5 15 none =
      hasConflict [⟨"b1", 0, 10, .CONFIRMED, [], []⟩] 5 15 none :=
  ⟨rfl, c9_conflict_ignores_status _ _ rfl 5 15 none⟩

/-- C10: at the interleaving where both creation handlers run their conflict
query against the empty store before either insert commits, both checks
report no conflict and both bookings are persisted, although their intervals
[0,10) and [5,15) overlap under the canonical predicate: a stored
double-booking. -/
theorem c10_concurrent_creates_double_book :
    raceRun [] ⟨"a", 0, 10, .CONFIRMED, ["u1"], ["s1"]⟩
        ⟨"b", 5, 15, .CONFIRMED, ["u2"], ["s2"]⟩ =
      (false, false,
        [⟨"a", 0, 10, .CONFIRMED, ["u1"], ["s1"]⟩,
         ⟨"b", 5, 15, .CONFIRMED, ["u2"], ["s2"]⟩]) ∧
    specOverlaps 0 10 5 15 = true :=
  ⟨rfl, rfl⟩

end AdminPortal
